import Mathlib

/-!
Verification of the tabular-import engine of swadr (src/swadr.py) against its
natural-language specification.  Python strings are modelled as lists of
Unicode code points because the importer reads files with the surrogateescape
error handler, so strings can contain lone surrogates that Lean String cannot
represent.  Machine-level details that the claims do not touch (the csv
dialect sniffer, the sqlite wire format) are modelled only through their
interface behaviour, as noted on each definition.
-/

namespace Swadr

/-- A Python string, modelled as the list of its Unicode code points.  Code
points in the surrogate range 0xD800-0xDFFF can occur in Python strings read
with the surrogateescape error handler, which is why Lean String is not used
directly. -/
abbrev PyStr := List Nat

/-- One CSV record: an ordered list of cell strings. -/
abbrev Row := List PyStr

/-- Convert a Lean string literal to the code-point model. -/
def pstr (s : String) : PyStr := s.data.map Char.toNat

/-- Decimal ASCII digit, the digits accepted by the Python int and float
constructors for base-10 input.  (Python also accepts non-ASCII decimal
digits; the specification and the data exercised by the claims are ASCII, so
the model covers the ASCII alphabet.) -/
def isDigitChar (c : Nat) : Bool := 48 ≤ c && c ≤ 57

/-- Whitespace stripped by the Python int and float constructors before
parsing (ASCII whitespace). -/
def isSpaceChar (c : Nat) : Bool := c = 32 || (9 ≤ c && c ≤ 13)

/-- Strip leading and trailing whitespace, the str.strip step of the Python
numeric constructors. -/
def stripWs (s : PyStr) : PyStr :=
  ((s.dropWhile isSpaceChar).reverse.dropWhile isSpaceChar).reverse

/-- Continuation of a digit run: zero or more further digits where a single
underscore may stand between two digits, as in Python numeric parsing. -/
def digitRunCont : PyStr → Bool
  | [] => true
  | [c] => isDigitChar c
  | c :: d :: rest =>
    if c = 95 then isDigitChar d && digitRunCont rest
    else isDigitChar c && digitRunCont (d :: rest)

/-- A whole string that is a non-empty run of digits with optional single
underscores between digits. -/
def isDigitRun : PyStr → Bool
  | [] => false
  | c :: rest => isDigitChar c && digitRunCont rest

/-- The INTEGER caster of the typemap: whether the Python int constructor
accepts the string (optional surrounding whitespace, optional sign, then a
base-10 digit run). -/
def intAccepts (s : PyStr) : Bool :=
  match stripWs s with
  | 43 :: rest => isDigitRun rest
  | 45 :: rest => isDigitRun rest
  | t => isDigitRun t

/-- Consume the longest leading digit run (underscores allowed between
digits) and return the remainder of the string. -/
def takeDigitCont : PyStr → PyStr
  | [] => []
  | [c] => if isDigitChar c then [] else [c]
  | c :: d :: rest =>
    if isDigitChar c then takeDigitCont (d :: rest)
    else if c = 95 && isDigitChar d then takeDigitCont rest
    else c :: d :: rest

/-- Consume a leading digit run; none when the string does not start with a
digit. -/
def takeDigitRun : PyStr → Option PyStr
  | [] => none
  | c :: rest => if isDigitChar c then some (takeDigitCont rest) else none

/-- Optional sign followed by a digit run spanning the rest of the string
(the exponent digits of a float literal). -/
def expTail : PyStr → Bool
  | 43 :: rest => isDigitRun rest
  | 45 :: rest => isDigitRun rest
  | s => isDigitRun s

/-- After the mantissa of a float literal: either the end of the string or an
exponent marker e or E with signed digits. -/
def afterMantissa : PyStr → Bool
  | [] => true
  | c :: rest => (c = 101 || c = 69) && expTail rest

/-- A finite float literal body: digits, digits dot optional digits, or dot
digits, each followed by an optional exponent. -/
def floatNumber (s : PyStr) : Bool :=
  match takeDigitRun s with
  | some rest =>
    match rest with
    | 46 :: rest2 =>
      match takeDigitRun rest2 with
      | some rest3 => afterMantissa rest3
      | none => afterMantissa rest2
    | r => afterMantissa r
  | none =>
    match s with
    | 46 :: rest2 =>
      match takeDigitRun rest2 with
      | some rest3 => afterMantissa rest3
      | none => false
    | _ => false

/-- Lower-case an ASCII letter. -/
def lowerChar (c : Nat) : Nat := if 65 ≤ c && c ≤ 90 then c + 32 else c

/-- The special float spellings inf, infinity and nan, case-insensitive. -/
def isInfNan (s : PyStr) : Bool :=
  let l := s.map lowerChar
  l = [105, 110, 102] ||
    l = [105, 110, 102, 105, 110, 105, 116, 121] ||
      l = [110, 97, 110]

/-- The REAL caster of the typemap: whether the Python float constructor
accepts the string. -/
def floatAccepts (s : PyStr) : Bool :=
  match stripWs s with
  | 43 :: rest => isInfNan rest || floatNumber rest
  | 45 :: rest => isInfNan rest || floatNumber rest
  | t => isInfNan t || floatNumber t

/-- Unicode surrogate code point. -/
def isSurrogate (c : Nat) : Bool := 55296 ≤ c && c ≤ 57343

/-- The TEXT caster: encoding a Python string as strict UTF-8 succeeds
exactly when the string holds no surrogate code point. -/
def textAccepts (s : PyStr) : Bool := s.all (fun c => !isSurrogate c)

/-- The BLOB caster: encoding with the surrogateescape error handler also
tolerates the surrogates 0xDC80-0xDCFF, which are exactly the code points the
surrogateescape decoder that reads the source file can produce; any other
lone surrogate still raises UnicodeEncodeError. -/
def blobAccepts (s : PyStr) : Bool :=
  s.all (fun c => !isSurrogate c || (56448 ≤ c && c ≤ 56575))

/-- The ordered (typedef, caster) table of SQLite3CSVImporter.typemap. -/
def typemap : List (String × (PyStr → Bool)) :=
  [("INTEGER", intAccepts), ("REAL", floatAccepts),
   ("TEXT", textAccepts), ("BLOB", blobAccepts)]

/-- The inner for-loop of detect_types: the first typemap entry whose caster
accepts every scanned value; none models falling through to the ValueError
raise. -/
def firstAccepting : List (String × (PyStr → Bool)) → List PyStr → Option String
  | [], _ => none
  | p :: rest, scanned =>
    if scanned.all p.2 then some p.1 else firstAccepting rest scanned

/-- The probe set of one column: its non-empty values, or a single empty
string when the column has no non-empty value. -/
def scannedOf (column : List PyStr) : List PyStr :=
  let rows_with_content := column.filter (fun v => !v.isEmpty)
  if rows_with_content.isEmpty then [[]] else rows_with_content

/-- Type detection for one column probe set. -/
def detectColumn (scanned : List PyStr) : Option String :=
  firstAccepting typemap scanned

/-- Transposition helper: columns built while the first row and every other
row still have cells. -/
def pyZipAux : Row → List Row → List (List PyStr)
  | [], _ => []
  | c :: ctail, rs =>
    if rs.all (fun x => !x.isEmpty) then
      (c :: rs.map (fun x => x.headD [])) :: pyZipAux ctail (rs.map (fun x => x.tail))
    else []

/-- Transposition truncating to the shortest row, the behaviour of the
Python expression zip applied to the unpacked table. -/
def pyZip : List Row → List (List PyStr)
  | [] => []
  | r :: rs => pyZipAux r rs

/-- Per-column detection over a list of columns; none as soon as one column
raises. -/
def detectTypesCols : List (List PyStr) → Option (List String)
  | [] => some []
  | col :: rest =>
    match detectColumn (scannedOf col) with
    | none => none
    | some td =>
      match detectTypesCols rest with
      | none => none
      | some tds => some (td :: tds)

/-- Model of SQLite3CSVImporter.detect_types: transpose the table, probe each
column with its non-empty values (or one empty string), and keep the first
typemap entry accepting every probe; none models the ValueError raise. -/
def detect_types (table : List Row) : Option (List String) :=
  detectTypesCols (pyZip table)

/-- The per-column rule as the specification words it: INTEGER when every
probed value parses as a base-10 integer, else REAL when every value parses
as a floating-point number, else TEXT when every value is valid text under
the declared encoding, else BLOB.  Stated separately from the code model so
the two can be compared. -/
def specColumnType (scanned : List PyStr) : String :=
  if scanned.all intAccepts then "INTEGER"
  else if scanned.all floatAccepts then "REAL"
  else if scanned.all textAccepts then "TEXT"
  else "BLOB"

/-! ### Identifier quoting -/

/-- Double every double-quote character, the str.replace step of
quote_identifier. -/
def doubleQuotes : PyStr → PyStr
  | [] => []
  | c :: rest =>
    if c = 34 then 34 :: 34 :: doubleQuotes rest else c :: doubleQuotes rest

/-- Model of SQLite3CSVImporter.quote_identifier: wrap the identifier in
double quotes and double every embedded double quote. -/
def quote_identifier (s : PyStr) : PyStr := 34 :: (doubleQuotes s ++ [34])

/-- Collapse doubled double quotes back to single ones. -/
def halveQuotes : PyStr → PyStr
  | [] => []
  | [c] => [c]
  | c :: d :: rest =>
    if c = 34 && d = 34 then 34 :: halveQuotes rest
    else c :: halveQuotes (d :: rest)

/-- Unquoting as the specification describes it: strip the outer quoting
delimiters and halve the doubled embedded delimiters; none when the string is
not of quoted shape.  Stated from the specification words to compare with
quote_identifier. -/
def unquoteIdentifierSpec (s : PyStr) : Option PyStr :=
  match s with
  | 34 :: rest =>
    match rest.getLast? with
    | some 34 => some (halveQuotes rest.dropLast)
    | _ => none
  | _ => none

/-! ### Schema building (create_table) -/

/-- ASCII alphabetic character (model of str.isalpha on the data the claims
exercise). -/
def isAlphaChar (c : Nat) : Bool := (65 ≤ c && c ≤ 90) || (97 ≤ c && c ≤ 122)

/-- Word character in the sense of the regular expression class backslash-w,
modelled over ASCII: letters, digits and the underscore. -/
def isWordChar (c : Nat) : Bool := isAlphaChar c || isDigitChar c || c = 95

/-- Replacement of maximal runs of non-word characters by one underscore,
with a replacement budget: the source passes the flag value re.M bitor re.U
(which is 40) as the count argument of re.sub, so only the first forty runs
are replaced and the rest of the string is emitted verbatim.  The Bool flag
records whether the previous character belonged to a run already replaced. -/
def subWAux : Nat → Bool → PyStr → PyStr
  | _, _, [] => []
  | n, inRun, c :: rest =>
    if isWordChar c then c :: subWAux n false rest
    else if inRun then subWAux n true rest
    else
      match n with
      | 0 => c :: subWAux 0 false rest
      | m + 1 => 95 :: subWAux m true rest

/-- The re.sub call of create_table with its effective count of forty. -/
def subNonWord (count : Nat) (s : PyStr) : PyStr := subWAux count false s

/-- Strip leading and trailing underscores (str.strip with underscore). -/
def stripUnderscores (s : PyStr) : PyStr :=
  ((s.dropWhile (fun c => c = 95)).reverse.dropWhile (fun c => c = 95)).reverse

/-- Sanitisation of one supplied column name. -/
def sanitizeColumn (s : PyStr) : PyStr := stripUnderscores (subNonWord 40 s)

/-- Decimal rendering of a natural number as code points. -/
def natToStr (n : Nat) : PyStr := (Nat.repr n).data.map Char.toNat

/-- Candidate identifiers tried by the deduplication loop: the sanitised word
itself for base one, then the word with an underscore and the decimal base
appended. -/
def candName (word : PyStr) (base : Nat) : PyStr :=
  if base = 1 then word else word ++ 95 :: natToStr base

/-- The while-loop of the deduplication: increment the base until the
candidate is not among the already-produced names.  The fuel starts above the
number of produced names; since distinct bases give distinct candidates, at
most that many candidates can collide, so the fuel never runs out and the
zero-fuel branch is unreachable. -/
def freshFrom (word : PyStr) (produced : List PyStr) : Nat → Nat → PyStr
  | base, 0 => candName word base
  | base, fuel + 1 =>
    if candName word base ∈ produced then freshFrom word produced (base + 1) fuel
    else candName word base

/-- First candidate name for the sanitised word that does not collide with an
already-produced name. -/
def freshName (word : PyStr) (produced : List PyStr) : PyStr :=
  freshFrom word produced 1 (produced.length + 1)

/-- The supplied-names branch of create_table: sanitise each name and
deduplicate against the names produced so far, in order. -/
def buildColumnNames (cols : List PyStr) : List PyStr :=
  List.foldl (fun acc col => acc ++ [freshName (sanitizeColumn col) acc]) [] cols

/-- Base character for synthesised column names: the first alphabetic
character of the table name, lower-cased, or the letter n. -/
def autoBase (tablename : PyStr) : Nat :=
  match tablename.find? isAlphaChar with
  | some c => lowerChar c
  | none => 110

/-- The generated column names: base character followed by the position,
starting at one; the zip with the types list truncates the infinite Python
generator to one name per type. -/
def autoColumns (tablename : PyStr) (k : Nat) : List PyStr :=
  (List.range k).map (fun n => autoBase tablename :: natToStr (n + 1))

/-- Join a list of strings with a separator, the str.join semantics. -/
def joinSep (sep : PyStr) : List PyStr → PyStr
  | [] => []
  | [x] => x
  | x :: xs => x ++ sep ++ joinSep sep xs

/-- Errors raised by the import engine before or instead of a row-level
insert failure. -/
inductive LoadError where
  /-- The dialect sniffer fails on an empty sample (modelled from its
  interface: csv.Sniffer.sniff raises on input without any line). -/
  | emptySource : LoadError
  /-- The ValueError raise of detect_types. -/
  | typeDetection : LoadError
  /-- The ValueError of create_table when no types are supplied. -/
  | schemaError : LoadError
deriving DecidableEq, Repr

/-- The processed column-name list of create_table: synthesised names when
no names (or an empty list) are supplied, the sanitised and deduplicated
supplied names otherwise. -/
def effectiveColumns (tablename : PyStr) (types : List String)
    (columns : Option (List PyStr)) : List PyStr :=
  match columns with
  | none => autoColumns tablename types.length
  | some cs =>
    if cs.isEmpty then autoColumns tablename types.length
    else buildColumnNames cs

/-- Model of SQLite3CSVImporter.create_table up to the DDL text it executes:
process the column names (synthesising them when absent or empty), raise
when no types are supplied, and render the CREATE TABLE statement with one
quoted-identifier clause per zipped (column, type) pair.  Note the source
performs no arity check between columns and types: zip truncates silently. -/
def create_table_stmt (tablename : PyStr) (types : List String)
    (columns : Option (List PyStr)) (if_not_exists : Bool) :
    Except LoadError PyStr :=
  let cols := effectiveColumns tablename types columns
  if types.isEmpty then Except.error LoadError.schemaError
  else
    let body := joinSep (pstr ",\n  ")
      (((cols.map quote_identifier).zip types).map
        (fun p => p.1 ++ 32 :: pstr p.2))
    let ifNotExistsClause := if if_not_exists then pstr "IF NOT EXISTS " else []
    Except.ok (pstr "CREATE TABLE " ++ ifNotExistsClause ++
      quote_identifier tablename ++ pstr " (\n  " ++ body ++ pstr "\n)")

/-! ### The loadfile model

The source file is modelled by the list of its CSV records (one record per
physical line for the inputs the claims describe).  The database connection
is modelled by the state of the one target table: none when the table is
absent, some of its declared column count and row list otherwise.  An
insert models the full failure behaviour of cursor.execute: preparing the
INSERT fails when the table is absent or its column count differs from the
placeholder count, and binding fails when the parameter count differs from
the placeholder count or a non-empty cell holds a lone surrogate, because
sqlite3 binds text through strict UTF-8. -/

/-- A stored row: one optional value per column, none for SQL null. -/
abbrev InsRow := List (Option PyStr)

/-- The target table when present: its declared column count and its stored
rows. -/
structure SqlTable where
  ncols : Nat
  rows : List InsRow
deriving DecidableEq, Repr

/-- The database state restricted to the target table. -/
abbrev DB := Option SqlTable

/-- The stored rows of the target table, empty when the table is absent. -/
def dbRows (db : DB) : List InsRow :=
  match db with
  | none => []
  | some t => t.rows

/-- The parameter list bound for one CSV record: an empty cell is bound as
null, any other cell as its string. -/
def toParams (row : Row) : InsRow :=
  row.map (fun v => if v.isEmpty then none else some v)

/-- Whether one record passes cursor.execute against a table of nc declared
columns and an INSERT with arity placeholders: the prepare step needs the
placeholder count to equal the table column count, and the bind step needs
one parameter per placeholder with every non-empty cell free of lone
surrogates (sqlite3 encodes text parameters with strict UTF-8, so a cell
binds exactly when the TEXT caster accepts it; the null parameters produced
by empty cells always bind). -/
def insertOK (nc arity : Nat) (row : Row) : Bool :=
  decide (nc = arity) && decide (row.length = arity) && row.all textAccepts

/-- One cursor.execute of the INSERT statement: fails when the table is
absent (no such table) or when insertOK rejects the record; otherwise the
parameter row is appended. -/
def insertRow (tbl : DB) (arity : Nat) (row : Row) : Option SqlTable :=
  match tbl with
  | none => none
  | some t =>
    if insertOK t.ncols arity row then some ⟨t.ncols, t.rows ++ [toParams row]⟩
    else none

/-- The schema decisions loadfile takes from the sample: header presence, the
authoritative types, the header cells when declared, and the line number of
the first data row. -/
structure Plan where
  hasHeader : Bool
  types : List String
  columns : Option Row
  firstLineNumber : Nat
deriving DecidableEq, Repr

/-- The schema-planning section of loadfile: infer types over the whole
sample and over the sample without its first row, declare a header when the
two vectors differ, and keep the without-first vector unless it is empty
(the Python expression with the falsy-or).  none models a ValueError escaping
from detect_types. -/
def planOf (sample : List Row) : Option Plan :=
  match detect_types sample, detect_types sample.tail with
  | some tw, some ts =>
    let hasHeader : Bool := ts ≠ tw
    let types := if ts.isEmpty then tw else ts
    if hasHeader then
      some ⟨true, types, some (sample.headD []), 2⟩
    else
      some ⟨false, types, none, 1⟩
  | _, _ => none

/-- The records loadfile submits for insertion: every record of the file,
minus the first one when it was declared a header. -/
def insertionRows (rows : List Row) (plan : Plan) : List Row :=
  if plan.hasHeader then rows.tail else rows

/-- Result of the insert loop: the final table with the number of successful
inserts, or the line number at which an error was raised when errors are not
ignored. -/
inductive InsOutcome where
  | done (tbl : DB) (count : Nat) : InsOutcome
  | raised (lineno : Nat) : InsOutcome
deriving DecidableEq, Repr

/-- The insert loop of loadfile: enumerate the records from the first line
number; a failed insert is skipped when errors are ignored and otherwise
raises with the current line number. -/
def insertLoop (arity : Nat) (ignore_errors : Bool) :
    List Row → Nat → DB → Nat → InsOutcome
  | [], _, tbl, count => InsOutcome.done tbl count
  | row :: rest, lineno, tbl, count =>
    match insertRow tbl arity row with
    | some tbl2 => insertLoop arity ignore_errors rest (lineno + 1) (some tbl2) (count + 1)
    | none =>
      if ignore_errors then insertLoop arity ignore_errors rest (lineno + 1) tbl count
      else InsOutcome.raised lineno

/-- Outcome of one loadfile call.  The db component is the table state after
the call.  On a fatal error raised before any statement executed, the state
is the pre-call state.  On a row error (ignore_errors false) the with-block
rolls back the implicit transaction, which only opened at the first INSERT:
the rollback undoes exactly the inserts, not the CREATE TABLE, which had
already autocommitted, so the state is the post-create, pre-insert state.
On normal return the transaction commits.  The retval component is the
Python return value of loadfile (the function body has no return statement,
so it is always none, the Python None).  The inserted component counts the
successful inserts. -/
inductive LoadOutcome where
  | fatal (e : LoadError) (db : DB) : LoadOutcome
  | rowError (filename : String) (lineno : Nat) (db : DB) : LoadOutcome
  | ok (retval : Option Nat) (db : DB) (inserted : Nat) : LoadOutcome
deriving DecidableEq, Repr

/-- The table state right after the CREATE TABLE of loadfile executes: a
fresh empty table with one column per emitted clause when the table was
absent, the existing table unchanged otherwise (IF NOT EXISTS).  Under the
default sqlite3 transaction control this DDL autocommits at once, because
the implicit transaction of the with-block only opens at the first INSERT;
a later rollback therefore does not undo the creation. -/
def createEffect (db : DB) (tablename : PyStr) (types : List String)
    (columns : Option (List PyStr)) : SqlTable :=
  match db with
  | none => ⟨((effectiveColumns tablename types columns).zip types).length, []⟩
  | some t => t

/-- Model of SQLite3CSVImporter.loadfile over the parsed records of the
source file.  The empty-source branch models the dialect sniffer, which
raises on a sample without any line before anything else happens; afterwards
the sample is the first twenty records, the schema plan is inferred from it,
the table is created when requested (autocommitting, see createEffect), and
the records stream through the insert loop with the configured error policy.
A raised row error leaves the post-create state: only the inserts of the
implicit transaction are rolled back. -/
def loadfile (db : DB) (ignore_errors : Bool) (filename : String)
    (tablename : PyStr) (rows : List Row) (createTable : Bool) : LoadOutcome :=
  if rows.isEmpty then LoadOutcome.fatal LoadError.emptySource db
  else
    let sample := rows.take 20
    match planOf sample with
    | none => LoadOutcome.fatal LoadError.typeDetection db
    | some plan =>
      let arity := (sample.headD []).length
      let afterCreate : Except LoadError DB :=
        if createTable then
          match create_table_stmt tablename plan.types plan.columns true with
          | Except.error e => Except.error e
          | Except.ok _ =>
            Except.ok (some (createEffect db tablename plan.types plan.columns))
        else Except.ok db
      match afterCreate with
      | Except.error e => LoadOutcome.fatal e db
      | Except.ok db1 =>
        match insertLoop arity ignore_errors (insertionRows rows plan)
            plan.firstLineNumber db1 0 with
        | InsOutcome.raised lineno => LoadOutcome.rowError filename lineno db1
        | InsOutcome.done tbl count => LoadOutcome.ok none tbl count

/-! ### Concrete inputs used by the witnesses -/

/-- The end-to-end file of the specification: a three-column header, twenty
uniform integer records and one malformed trailing record of arity two. -/
def e2eRows : List Row :=
  [pstr "A", pstr "B", pstr "C"] ::
    (List.replicate 20 [pstr "1", pstr "2", pstr "3"] ++ [[pstr "7", pstr "8"]])

/-- The table of the detect_types unit test, with the undecodable byte
represented by the surrogateescape code point 0xDC80. -/
def witnessTable : List Row :=
  [[pstr "100", pstr "Pony", pstr "13.37", [56448]],
   [pstr "200", pstr "Duck", pstr "0.37", [56448]],
   [pstr "300", pstr "Grendel", pstr "42.1", [56448]]]

/-- A column name made of forty-one maximal runs of non-word characters. -/
def fortyOneRuns : PyStr := (List.replicate 41 ([46, 97] : PyStr)).flatten

/-! ### Lemmas about type detection -/

/-- The first-match walk over the typemap agrees with the nested-condition
reading of the specification whenever the BLOB caster accepts every probed
value. -/
theorem detectColumn_of_blob (scanned : List PyStr)
    (h : ∀ v ∈ scanned, blobAccepts v = true) :
    detectColumn scanned = some (specColumnType scanned) := by
  have hblob : scanned.all blobAccepts = true := List.all_eq_true.mpr h
  simp only [detectColumn, typemap, firstAccepting, specColumnType]
  by_cases h1 : scanned.all intAccepts
  · simp [h1]
  · simp only [h1, if_false, Bool.false_eq_true, if_neg, ite_false]
    by_cases h2 : scanned.all floatAccepts
    · simp [h1, h2]
    · by_cases h3 : scanned.all textAccepts
      · simp [h1, h2, h3]
      · simp [h1, h2, h3, hblob]

/-- Every value of a transposed column is a value of one of the rows. -/
theorem pyZipAux_mem (r : Row) :
    ∀ (rs : List Row) (col : List PyStr),
      col ∈ pyZipAux r rs → ∀ v ∈ col, v ∈ r ∨ ∃ x ∈ rs, v ∈ x := by
  induction r with
  | nil =>
    intro rs col hc
    simp [pyZipAux] at hc
  | cons c ctail ih =>
    intro rs col hc v hv
    simp only [pyZipAux] at hc
    by_cases hall : rs.all (fun x => !x.isEmpty)
    · rw [if_pos hall] at hc
      rcases List.mem_cons.mp hc with h1 | h2
      · subst h1
        rcases List.mem_cons.mp hv with rfl | hv2
        · exact Or.inl (List.mem_cons_self _ _)
        · rcases List.mem_map.mp hv2 with ⟨x, hx, rfl⟩
          refine Or.inr ⟨x, hx, ?_⟩
          have hne : x.isEmpty = false := by
            have := List.all_eq_true.mp hall x hx
            simpa using this
          cases x with
          | nil => simp at hne
          | cons a as => exact List.mem_cons_self _ _
      · rcases ih (rs.map (fun x => x.tail)) col h2 v hv with h | ⟨x, hx, hvx⟩
        · exact Or.inl (List.mem_cons_of_mem _ h)
        · rcases List.mem_map.mp hx with ⟨y, hy, rfl⟩
          exact Or.inr ⟨y, hy, List.mem_of_mem_tail hvx⟩
    · rw [if_neg hall] at hc
      simp at hc

/-- The probe set of a column holds only the empty string and values of the
column. -/
theorem scannedOf_mem (col : List PyStr) (v : PyStr) (hv : v ∈ scannedOf col) :
    v = [] ∨ v ∈ col := by
  simp only [scannedOf] at hv
  by_cases h : (col.filter (fun v => !v.isEmpty)).isEmpty
  · rw [if_pos h] at hv
    simp at hv
    exact Or.inl hv
  · rw [if_neg h] at hv
    exact Or.inr (List.mem_of_mem_filter hv)

/-- Column-wise detection succeeds with the specification values whenever
every column value is BLOB-acceptable. -/
theorem detectTypesCols_of_blob :
    ∀ (cols : List (List PyStr)),
      (∀ col ∈ cols, ∀ v ∈ col, blobAccepts v = true) →
      detectTypesCols cols =
        some (cols.map (fun col => specColumnType (scannedOf col))) := by
  intro cols
  induction cols with
  | nil => intro _; rfl
  | cons col rest ih =>
    intro h
    have hcol : ∀ v ∈ scannedOf col, blobAccepts v = true := by
      intro v hv
      rcases scannedOf_mem col v hv with rfl | hv2
      · rfl
      · exact h col (List.mem_cons_self _ _) v hv2
    have hrest := ih (fun c hc v hv => h c (List.mem_cons_of_mem _ hc) v hv)
    simp [detectTypesCols, detectColumn_of_blob _ hcol, hrest]

/-- Shared core of the type-inference claims: on a table whose values the
BLOB caster accepts (every table the surrogateescape reader can deliver),
detect_types succeeds and returns, per column, the first of INTEGER, REAL,
TEXT, BLOB whose validator accepts every probed value. -/
theorem detect_types_blob_spec (table : List Row)
    (h : ∀ r ∈ table, ∀ v ∈ r, blobAccepts v = true) :
    detect_types table =
      some ((pyZip table).map (fun col => specColumnType (scannedOf col))) := by
  unfold detect_types
  apply detectTypesCols_of_blob
  intro col hcol v hv
  cases table with
  | nil => simp [pyZip] at hcol
  | cons r rs =>
    simp only [pyZip] at hcol
    rcases pyZipAux_mem r rs col hcol v hv with hvr | ⟨x, hx, hvx⟩
    · exact h r (List.mem_cons_self _ _) v hvr
    · exact h x (List.mem_cons_of_mem _ hx) v hvx

/-! ### C1 -/

/-- C1: for every sampled table (a table whose values can come from the
surrogateescape reader), detect_types assigns each column the first type in
the priority order INTEGER, REAL, TEXT, BLOB whose validator accepts every
non-empty value of the column, an all-empty column being probed with a
single empty string; specColumnType states that rule in the words of the
specification. -/
theorem C1_detect_types_first_accepting (table : List Row)
    (h : ∀ r ∈ table, ∀ v ∈ r, blobAccepts v = true) :
    detect_types table =
      some ((pyZip table).map (fun col => specColumnType (scannedOf col))) :=
  detect_types_blob_spec table h

/-- Witness for C1 at the unit-test table: the hypothesis evaluates and the
inferred vector is INTEGER, TEXT, REAL, BLOB. -/
theorem C1_witness :
    (∀ r ∈ witnessTable, ∀ v ∈ r, blobAccepts v = true) ∧
    detect_types witnessTable =
      some ((pyZip witnessTable).map (fun col => specColumnType (scannedOf col))) ∧
    detect_types witnessTable = some ["INTEGER", "TEXT", "REAL", "BLOB"] :=
  ⟨by decide, C1_detect_types_first_accepting witnessTable (by decide), by decide⟩

/-! ### C9 -/

/-- C9, counterexample: the BLOB caster does not accept every string.  On a
string holding the lone surrogate 0xD800 (which Python strings can hold, but
the surrogateescape encoder does not handle) the caster raises, and
detect_types on a table holding only that value raises as well. -/
theorem C9_counterexample :
    blobAccepts [55296] = false ∧ detect_types [[[55296]]] = none :=
  ⟨rfl, rfl⟩

/-- C9, amended: the BLOB validator accepts every string whose surrogate
code points lie in 0xDC80-0xDCFF, which is every string the surrogateescape
decoder that reads the source can produce; on every table of such strings
detect_types is total, so the ValueError branch is unreachable for sampled
tables. -/
theorem C9_amended_total (table : List Row)
    (h : ∀ r ∈ table, ∀ v ∈ r, blobAccepts v = true) :
    ∃ ts, detect_types table = some ts :=
  ⟨_, detect_types_blob_spec table h⟩

/-- Witness for C9 at a one-cell table holding the surrogateescape code
point 0xDC80. -/
theorem C9_witness :
    (∀ r ∈ [[[(56448 : Nat)]]], ∀ v ∈ r, blobAccepts v = true) ∧
    ∃ ts, detect_types [[[(56448 : Nat)]]] = some ts :=
  ⟨by decide, C9_amended_total [[[(56448 : Nat)]]] (by decide)⟩

/-! ### C7 -/

/-- Halving undoes doubling. -/
theorem halveQuotes_doubleQuotes (s : PyStr) :
    halveQuotes (doubleQuotes s) = s := by
  induction s with
  | nil => rfl
  | cons c rest ih =>
    by_cases h : c = 34
    · subst h
      simp only [doubleQuotes, if_pos rfl, halveQuotes]
      simp [ih]
    · simp only [doubleQuotes, if_neg h]
      cases hd : doubleQuotes rest with
      | nil =>
        have : rest = [] := by
          have := ih
          rw [hd] at this
          simpa [halveQuotes] using this.symm
        simp [this, halveQuotes]
      | cons d l =>
        have hcd : (c = 34 && d = 34) = false := by simp [h]
        simp only [halveQuotes, hcd, Bool.false_eq_true, if_false]
        rw [← hd, ih]

/-- Doubling doubles the number of quote characters. -/
theorem count_doubleQuotes (s : PyStr) :
    (doubleQuotes s).count 34 = 2 * s.count 34 := by
  induction s with
  | nil => rfl
  | cons c rest ih =>
    by_cases h : c = 34
    · subst h
      simp [doubleQuotes, List.count_cons, ih]
      ring
    · simp [doubleQuotes, h, List.count_cons, ih]

/-- C7: quote_identifier wraps the identifier in the double-quote delimiter
and doubles every embedded occurrence of it (the quote count doubles plus the
two outer delimiters), and unquoting as the specification describes (strip
the outer delimiters, halve doubled ones) recovers the original identifier
exactly, for every identifier including those made only of delimiters. -/
theorem C7_quote_roundtrip (s : PyStr) :
    (quote_identifier s).count 34 = 2 * s.count 34 + 2 ∧
    unquoteIdentifierSpec (quote_identifier s) = some s := by
  constructor
  · simp [quote_identifier, List.count_cons, List.count_append, count_doubleQuotes]
  · simp only [quote_identifier, unquoteIdentifierSpec, List.getLast?_concat,
      List.dropLast_concat]
    rw [halveQuotes_doubleQuotes]

/-! ### C2 -/

/-- C2: the first row is declared a header exactly when the type vector over
the whole sample differs from the vector over the sample without its first
row; with a header the literal first-row cells become the column names and
the first record is excluded from insertion; without one no column names are
taken from the data, every record is inserted, and the vector over all
sample rows is the authoritative type vector. -/
theorem C2_header_decision (rows : List Row) (plan : Plan) (tw ts : List String)
    (h1 : detect_types (rows.take 20) = some tw)
    (h2 : detect_types (rows.take 20).tail = some ts)
    (hp : planOf (rows.take 20) = some plan) :
    (plan.hasHeader = true ↔ ts ≠ tw) ∧
    (plan.hasHeader = true →
      plan.columns = some (rows.headD []) ∧
      insertionRows rows plan = rows.tail) ∧
    (plan.hasHeader = false →
      plan.columns = none ∧ plan.types = tw ∧ insertionRows rows plan = rows) := by
  unfold planOf at hp
  rw [h1, h2] at hp
  by_cases hne : ts = tw
  · subst hne
    simp at hp
    subst hp
    exact ⟨by simp, by simp, fun _ => ⟨rfl, rfl, by simp [insertionRows]⟩⟩
  · have hrows : rows ≠ [] := by
      intro h0
      subst h0
      have htw : tw = [] := by
        simpa [detect_types, pyZip, detectTypesCols] using h1.symm
      have hts : ts = [] := by
        simpa [detect_types, pyZip, detectTypesCols] using h2.symm
      exact hne (hts.trans htw.symm)
    simp [hne] at hp
    subst hp
    refine ⟨by simp [hne], fun _ => ⟨?_, by simp [insertionRows]⟩, by simp⟩
    cases rows with
    | nil => exact absurd rfl hrows
    | cons r rs => simp

/-- Witness for C2 on a two-record file whose first row is textual and whose
second is numeric: a header is declared. -/
theorem C2_witness :
    detect_types ([[pstr "a", pstr "b"], [pstr "1", pstr "2"]].take 20)
        = some ["TEXT", "TEXT"] ∧
    detect_types ([[pstr "a", pstr "b"], [pstr "1", pstr "2"]].take 20).tail
        = some ["INTEGER", "INTEGER"] ∧
    planOf ([[pstr "a", pstr "b"], [pstr "1", pstr "2"]].take 20)
        = some ⟨true, ["INTEGER", "INTEGER"], some [pstr "a", pstr "b"], 2⟩ ∧
    ((Plan.hasHeader ⟨true, ["INTEGER", "INTEGER"], some [pstr "a", pstr "b"], 2⟩ = true ↔
        (["INTEGER", "INTEGER"] : List String) ≠ ["TEXT", "TEXT"]) ∧
      (Plan.hasHeader ⟨true, ["INTEGER", "INTEGER"], some [pstr "a", pstr "b"], 2⟩ = true →
        Plan.columns ⟨true, ["INTEGER", "INTEGER"], some [pstr "a", pstr "b"], 2⟩ =
            some ([[pstr "a", pstr "b"], [pstr "1", pstr "2"]].headD []) ∧
          insertionRows [[pstr "a", pstr "b"], [pstr "1", pstr "2"]]
              ⟨true, ["INTEGER", "INTEGER"], some [pstr "a", pstr "b"], 2⟩ =
            [[pstr "a", pstr "b"], [pstr "1", pstr "2"]].tail) ∧
      (Plan.hasHeader ⟨true, ["INTEGER", "INTEGER"], some [pstr "a", pstr "b"], 2⟩ = false →
        Plan.columns ⟨true, ["INTEGER", "INTEGER"], some [pstr "a", pstr "b"], 2⟩ = none ∧
          Plan.types ⟨true, ["INTEGER", "INTEGER"], some [pstr "a", pstr "b"], 2⟩ =
            ["TEXT", "TEXT"] ∧
          insertionRows [[pstr "a", pstr "b"], [pstr "1", pstr "2"]]
              ⟨true, ["INTEGER", "INTEGER"], some [pstr "a", pstr "b"], 2⟩ =
            [[pstr "a", pstr "b"], [pstr "1", pstr "2"]])) :=
  ⟨by decide, by decide, by decide,
    C2_header_decision [[pstr "a", pstr "b"], [pstr "1", pstr "2"]]
      ⟨true, ["INTEGER", "INTEGER"], some [pstr "a", pstr "b"], 2⟩
      ["TEXT", "TEXT"] ["INTEGER", "INTEGER"] (by decide) (by decide) (by decide)⟩

/-! ### Lemmas about the insert loop and loadfile -/

/-- With errors ignored and the table present, the loop keeps exactly the
records that insertOK accepts, in order, and counts them; the declared
column count never changes. -/
theorem insertLoop_ignore (arity : Nat) :
    ∀ (rows : List Row) (ln : Nat) (t : SqlTable) (c : Nat),
    insertLoop arity true rows ln (some t) c =
      InsOutcome.done
        (some ⟨t.ncols, t.rows ++ (rows.filter (insertOK t.ncols arity)).map toParams⟩)
        (c + (rows.filter (insertOK t.ncols arity)).length) := by
  intro rows
  induction rows with
  | nil => intro ln t c; simp [insertLoop]
  | cons row rest ih =>
    intro ln t c
    by_cases h : insertOK t.ncols arity row = true
    · have hrec := ih (ln + 1) ⟨t.ncols, t.rows ++ [toParams row]⟩ (c + 1)
      simp only [insertLoop, insertRow, h, if_pos, ite_true]
      rw [hrec]
      simp [List.filter_cons, h]
      omega
    · simp [insertLoop, insertRow, h, List.filter_cons, ih]

/-- With errors raised, the loop stops at the first record insertOK rejects,
reporting the line number reached there. -/
theorem insertLoop_first_fail (arity : Nat) :
    ∀ (good : List Row) (bad : Row) (rest : List Row) (ln : Nat) (t : SqlTable) (c : Nat),
    (∀ r ∈ good, insertOK t.ncols arity r = true) →
    insertOK t.ncols arity bad = false →
    insertLoop arity false (good ++ bad :: rest) ln (some t) c =
      InsOutcome.raised (ln + good.length) := by
  intro good
  induction good with
  | nil =>
    intro bad rest ln t c _ hbad
    simp [insertLoop, insertRow, hbad]
  | cons g gs ih =>
    intro bad rest ln t c hgood hbad
    have hg : insertOK t.ncols arity g = true := hgood g (List.mem_cons_self _ _)
    have hstep : insertLoop arity false ((g :: gs) ++ bad :: rest) ln (some t) c =
        insertLoop arity false (gs ++ bad :: rest) (ln + 1)
          (some ⟨t.ncols, t.rows ++ [toParams g]⟩) (c + 1) := by
      simp [insertLoop, insertRow, hg]
    rw [hstep, ih bad rest (ln + 1) ⟨t.ncols, t.rows ++ [toParams g]⟩ (c + 1)
      (fun r hr => hgood r (List.mem_cons_of_mem _ hr)) hbad]
    congr 1
    simp
    omega

/-- Whenever the loop returns normally, the table grew by exactly the number
of counted inserts (and stayed absent when it was absent). -/
theorem insertLoop_done_len (arity : Nat) (ign : Bool) :
    ∀ (rows : List Row) (ln : Nat) (tbl : DB) (c : Nat) (tbl2 : DB) (c2 : Nat),
    insertLoop arity ign rows ln tbl c = InsOutcome.done tbl2 c2 →
    (tbl = none → tbl2 = none ∧ c2 = c) ∧
    (∀ t, tbl = some t → ∃ t2, tbl2 = some t2 ∧
      t.rows.length + c2 = t2.rows.length + c) := by
  intro rows
  induction rows with
  | nil =>
    intro ln tbl c tbl2 c2 h
    simp [insertLoop] at h
    obtain ⟨rfl, rfl⟩ := h
    exact ⟨fun h0 => ⟨h0, rfl⟩, fun t ht => ⟨t, ht, rfl⟩⟩
  | cons row rest ih =>
    intro ln tbl c tbl2 c2 h
    cases tbl with
    | none =>
      simp only [insertLoop, insertRow] at h
      cases ign with
      | true =>
        simp only [ite_true] at h
        have := (ih (ln + 1) none c tbl2 c2 h).1 rfl
        exact ⟨fun _ => this, fun t ht => nomatch ht⟩
      | false => simp at h
    | some t =>
      simp only [insertLoop, insertRow] at h
      by_cases hok : insertOK t.ncols arity row = true
      · rw [if_pos hok] at h
        have := (ih (ln + 1) (some ⟨t.ncols, t.rows ++ [toParams row]⟩) (c + 1)
            tbl2 c2 h).2 ⟨t.ncols, t.rows ++ [toParams row]⟩ rfl
        obtain ⟨t2, ht2, hlen⟩ := this
        refine ⟨fun h0 => by simp at h0, fun t0 ht0 => ?_⟩
        obtain rfl : t0 = t := by injection ht0 with h0; exact h0.symm
        refine ⟨t2, ht2, ?_⟩
        simp at hlen
        omega
      · rw [if_neg hok] at h
        cases ign with
        | true =>
          simp only [ite_true] at h
          have := (ih (ln + 1) (some t) c tbl2 c2 h).2 t rfl
          obtain ⟨t2, ht2, hlen⟩ := this
          refine ⟨fun h0 => by simp at h0, fun t0 ht0 => ?_⟩
          obtain rfl : t0 = t := by injection ht0 with h0; exact h0.symm
          exact ⟨t2, ht2, hlen⟩
        | false => simp at h

/-- The created table keeps exactly the rows the state held before: none
when the table was absent, the existing rows otherwise. -/
theorem createEffect_rows (db : DB) (tn : PyStr) (types : List String)
    (columns : Option (List PyStr)) :
    (createEffect db tn types columns).rows = dbRows db := by
  cases db <;> rfl

/-- The types check of create_table never fires when at least one type is
supplied, so the statement is emitted. -/
theorem create_table_stmt_ok (tn : PyStr) (types : List String)
    (cols : Option (List PyStr)) (b : Bool) (h : types ≠ []) :
    ∃ ddl, create_table_stmt tn types cols b = Except.ok ddl := by
  have he : types.isEmpty = false := by
    cases types with
    | nil => exact absurd rfl h
    | cons a l => rfl
  unfold create_table_stmt
  rw [he]
  simp

/-- The first data line number recorded in a plan is two with a header and
one without. -/
theorem planOf_firstLineNumber (sample : List Row) (plan : Plan)
    (hp : planOf sample = some plan) :
    plan.firstLineNumber = if plan.hasHeader then 2 else 1 := by
  unfold planOf at hp
  cases hw : detect_types sample with
  | none => rw [hw] at hp; simp at hp
  | some tw =>
    cases hs : detect_types sample.tail with
    | none => rw [hw, hs] at hp; simp at hp
    | some ts =>
      rw [hw, hs] at hp
      by_cases hne : ts = tw
      · subst hne
        simp at hp
        subst hp
        rfl
      · simp [hne] at hp
        subst hp
        rfl

/-- One unfolding of loadfile along its main path: with a non-empty source,
a successful plan and a non-empty type vector, the call reduces to the
insert loop started on the post-header records with the sample arity, over
the (autocommitted) post-create table; when the loop raises, the rollback
leaves exactly that post-create state. -/
theorem loadfile_run (db : DB) (ign : Bool) (fn : String) (tn : PyStr)
    (rows : List Row) (plan : Plan)
    (hne : rows ≠ []) (hp : planOf (rows.take 20) = some plan)
    (ht : plan.types ≠ []) :
    loadfile db ign fn tn rows true =
      match insertLoop (rows.headD []).length ign (insertionRows rows plan)
          plan.firstLineNumber (some (createEffect db tn plan.types plan.columns)) 0 with
      | InsOutcome.raised lineno =>
          LoadOutcome.rowError fn lineno (some (createEffect db tn plan.types plan.columns))
      | InsOutcome.done tbl count => LoadOutcome.ok none tbl count := by
  obtain ⟨ddl, hddl⟩ := create_table_stmt_ok tn plan.types plan.columns true ht
  have hre : rows.isEmpty = false := by
    cases rows with
    | nil => exact absurd rfl hne
    | cons r rs => rfl
  have hhead : (rows.take 20).headD [] = rows.headD [] := by
    cases rows with
    | nil => rfl
    | cons r rs => simp
  unfold loadfile
  rw [hre]
  simp only [Bool.false_eq_true, if_false, ite_false, hp, hhead, hddl, if_true, ite_true]

/-! ### C3 -/

/-- C3, counterexample: on a fresh database the end-to-end file with errors
raised reports the failing line 22 with the source name, but the resulting
state is a present, empty three-column table, not an absent one: the CREATE
TABLE autocommitted before the implicit transaction opened at the first
INSERT, so the rollback undid only the inserts.  The claim says nothing
from the call is persisted and the table is left absent. -/
theorem C3_counterexample :
    loadfile none false "t.csv" (pstr "A") e2eRows true =
      LoadOutcome.rowError "t.csv" 22 (some ⟨3, []⟩) ∧
    (some (⟨3, []⟩ : SqlTable) : DB) ≠ none :=
  ⟨by decide, by decide⟩

/-- C3, amended: when a record fails to insert and errors are not ignored,
loadfile raises an error carrying the source name and the 1-based line
number of the failing record (the plan line offset plus its position, which
equals its file position plus one), and the implicit INSERT transaction is
rolled back: no row from the call is persisted and a pre-existing table is
unchanged, but because the CREATE TABLE autocommits before that transaction
opens, a newly created table persists empty rather than being absent.  When
errors are ignored, the call succeeds and the table holds exactly the prior
rows plus the successfully inserted records, every failing record absent. -/
theorem C3_row_failure_policy (db : DB) (fn : String) (tn : PyStr)
    (rows good rest : List Row) (bad : Row) (plan : Plan)
    (hne : rows ≠ []) (hp : planOf (rows.take 20) = some plan)
    (ht : plan.types ≠ [])
    (hdata : insertionRows rows plan = good ++ bad :: rest)
    (hgood : ∀ r ∈ good,
      insertOK (createEffect db tn plan.types plan.columns).ncols
        (rows.headD []).length r = true)
    (hbad : insertOK (createEffect db tn plan.types plan.columns).ncols
        (rows.headD []).length bad = false) :
    loadfile db false fn tn rows true =
      LoadOutcome.rowError fn (plan.firstLineNumber + good.length)
        (some (createEffect db tn plan.types plan.columns)) ∧
    (createEffect db tn plan.types plan.columns).rows = dbRows db ∧
    plan.firstLineNumber + good.length =
      (if plan.hasHeader then good.length + 1 else good.length) + 1 ∧
    loadfile db true fn tn rows true =
      LoadOutcome.ok none
        (some ⟨(createEffect db tn plan.types plan.columns).ncols,
          dbRows db ++
            ((good ++ bad :: rest).filter
              (insertOK (createEffect db tn plan.types plan.columns).ncols
                (rows.headD []).length)).map toParams⟩)
        (((good ++ bad :: rest).filter
          (insertOK (createEffect db tn plan.types plan.columns).ncols
            (rows.headD []).length)).length) ∧
    bad ∉ (good ++ bad :: rest).filter
        (insertOK (createEffect db tn plan.types plan.columns).ncols
          (rows.headD []).length) := by
  refine ⟨?_, createEffect_rows db tn plan.types plan.columns, ?_, ?_, ?_⟩
  · rw [loadfile_run db false fn tn rows plan hne hp ht, hdata,
      insertLoop_first_fail _ good bad rest plan.firstLineNumber _ 0 hgood hbad]
  · rw [planOf_firstLineNumber _ _ hp]
    by_cases h : plan.hasHeader <;> simp [h] <;> omega
  · rw [loadfile_run db true fn tn rows plan hne hp ht, hdata,
      insertLoop_ignore _ (good ++ bad :: rest) plan.firstLineNumber _ 0]
    rw [createEffect_rows db tn plan.types plan.columns]
    simp
  · intro hmem
    have hmem2 := (List.mem_filter.mp hmem).2
    rw [hbad] at hmem2
    exact Bool.noConfusion hmem2

/-- The plan loadfile infers for the end-to-end file. -/
def e2ePlan : Plan :=
  ⟨true, ["INTEGER", "INTEGER", "INTEGER"], some [pstr "A", pstr "B", pstr "C"], 2⟩

/-- The twenty well-formed records of the end-to-end file. -/
def e2eGood : List Row := List.replicate 20 [pstr "1", pstr "2", pstr "3"]

/-- The malformed trailing record of the end-to-end file. -/
def e2eBad : Row := [pstr "7", pstr "8"]

/-- Witness for C3 on the end-to-end file: with errors raised the call
reports line 22 and leaves the autocommitted empty table without any row of
the call; with errors ignored it inserts the twenty well-formed records and
skips the malformed one. -/
theorem C3_witness :
    e2eRows ≠ [] ∧
    planOf (e2eRows.take 20) = some e2ePlan ∧
    e2ePlan.types ≠ [] ∧
    insertionRows e2eRows e2ePlan = e2eGood ++ e2eBad :: [] ∧
    (∀ r ∈ e2eGood,
      insertOK (createEffect none (pstr "A") e2ePlan.types e2ePlan.columns).ncols
        (e2eRows.headD []).length r = true) ∧
    insertOK (createEffect none (pstr "A") e2ePlan.types e2ePlan.columns).ncols
        (e2eRows.headD []).length e2eBad = false ∧
    (loadfile none false "t.csv" (pstr "A") e2eRows true =
        LoadOutcome.rowError "t.csv" (e2ePlan.firstLineNumber + e2eGood.length)
          (some (createEffect none (pstr "A") e2ePlan.types e2ePlan.columns)) ∧
      (createEffect none (pstr "A") e2ePlan.types e2ePlan.columns).rows =
        dbRows (none : DB) ∧
      e2ePlan.firstLineNumber + e2eGood.length =
        (if e2ePlan.hasHeader then e2eGood.length + 1 else e2eGood.length) + 1 ∧
      loadfile none true "t.csv" (pstr "A") e2eRows true =
        LoadOutcome.ok none
          (some ⟨(createEffect none (pstr "A") e2ePlan.types e2ePlan.columns).ncols,
            dbRows (none : DB) ++
              ((e2eGood ++ e2eBad :: []).filter
                (insertOK (createEffect none (pstr "A") e2ePlan.types e2ePlan.columns).ncols
                  (e2eRows.headD []).length)).map toParams⟩)
          (((e2eGood ++ e2eBad :: []).filter
            (insertOK (createEffect none (pstr "A") e2ePlan.types e2ePlan.columns).ncols
              (e2eRows.headD []).length)).length) ∧
      e2eBad ∉ (e2eGood ++ e2eBad :: []).filter
          (insertOK (createEffect none (pstr "A") e2ePlan.types e2ePlan.columns).ncols
            (e2eRows.headD []).length)) :=
  ⟨by decide, by decide, by decide, by decide, by decide, by decide,
    C3_row_failure_policy none "t.csv" (pstr "A") e2eRows e2eGood [] e2eBad e2ePlan
      (by decide) (by decide) (by decide) (by decide) (by decide) (by decide)⟩

/-! ### C4 -/

/-- C4, counterexample: on the end-to-end file of the specification (header,
twenty well-formed records, one malformed record, errors ignored) loadfile
inserts twenty rows but returns the Python None, not the count: its body has
no return statement. -/
theorem C4_counterexample :
    loadfile none true "t.csv" (pstr "A") e2eRows true =
      LoadOutcome.ok none
        (some ⟨3, List.replicate 20 [some (pstr "1"), some (pstr "2"), some (pstr "3")]⟩)
        20 ∧
    (none : Option Nat) ≠ some 20 :=
  ⟨by decide, by decide⟩

/-- C4, amended: loadfile returns no value (None); the number of rows the
table actually gained in a successful table-creating call equals the number
of records that inserted successfully, excluding skipped records. -/
theorem C4_amended_rowcount (db : DB) (ign : Bool) (fn : String) (tn : PyStr)
    (rows : List Row) (plan : Plan) (rv : Option Nat) (tbl : DB) (cnt : Nat)
    (hne : rows ≠ []) (hp : planOf (rows.take 20) = some plan)
    (ht : plan.types ≠ [])
    (h : loadfile db ign fn tn rows true = LoadOutcome.ok rv tbl cnt) :
    rv = none ∧ ∀ t, tbl = some t → (dbRows db).length + cnt = t.rows.length := by
  rw [loadfile_run db ign fn tn rows plan hne hp ht] at h
  cases hloop : insertLoop (rows.headD []).length ign (insertionRows rows plan)
      plan.firstLineNumber (some (createEffect db tn plan.types plan.columns)) 0 with
  | raised ln =>
    rw [hloop] at h
    exact absurd h (by simp)
  | done tbl2 cnt2 =>
    rw [hloop] at h
    injection h with h1 h2 h3
    subst h1 h2 h3
    refine ⟨rfl, fun t htb => ?_⟩
    obtain ⟨t2, ht2, hl⟩ :=
      (insertLoop_done_len _ ign _ _ _ _ _ _ hloop).2
        (createEffect db tn plan.types plan.columns) rfl
    rw [createEffect_rows] at hl
    rw [htb] at ht2
    injection ht2 with ht2
    subst ht2
    omega

/-- Witness for C4 on the end-to-end file: the return value is None and the
table grew by the counted twenty rows. -/
theorem C4_witness :
    e2eRows ≠ [] ∧
    planOf (e2eRows.take 20) = some e2ePlan ∧
    e2ePlan.types ≠ [] ∧
    loadfile none true "t.csv" (pstr "A") e2eRows true =
      LoadOutcome.ok none
        (some ⟨3, List.replicate 20 [some (pstr "1"), some (pstr "2"), some (pstr "3")]⟩)
        20 ∧
    ((none : Option Nat) = none ∧
      ∀ t, (some (⟨3, List.replicate 20
            [some (pstr "1"), some (pstr "2"), some (pstr "3")]⟩ : SqlTable) : DB) =
          some t →
        (dbRows (none : DB)).length + 20 = t.rows.length) :=
  ⟨by decide, by decide, by decide, by decide,
    C4_amended_rowcount none true "t.csv" (pstr "A") e2eRows e2ePlan none
      (some ⟨3, List.replicate 20 [some (pstr "1"), some (pstr "2"), some (pstr "3")]⟩)
      20 (by decide) (by decide) (by decide) (by decide)⟩

/-! ### C8 -/

/-- C8: every row a successful error-ignoring loadfile call adds to the
table is the parameter image of a source record in which every empty cell is
bound as null: reading the stored row back gives none exactly at the empty
source cells and never gives a stored empty string. -/
theorem C8_empty_cell_null (db : DB) (fn : String) (tn : PyStr)
    (rows : List Row) (plan : Plan) (tbl : SqlTable) (cnt : Nat)
    (hne : rows ≠ []) (hp : planOf (rows.take 20) = some plan)
    (ht : plan.types ≠ [])
    (hrun : loadfile db true fn tn rows true = LoadOutcome.ok none (some tbl) cnt) :
    ∀ w ∈ tbl.rows.drop (dbRows db).length,
      ∃ r ∈ insertionRows rows plan,
        w = toParams r ∧
        (∀ (j : Nat) (hj : j < r.length) (hw : j < w.length),
          (r.get ⟨j, hj⟩ = [] ↔ w.get ⟨j, hw⟩ = none) ∧
          w.get ⟨j, hw⟩ ≠ some []) := by
  rw [loadfile_run db true fn tn rows plan hne hp ht,
    insertLoop_ignore _ (insertionRows rows plan) plan.firstLineNumber _ 0] at hrun
  injection hrun with h1 h2 h3
  injection h2 with h2
  subst h2
  intro w hw
  have hw2 : w ∈ ((createEffect db tn plan.types plan.columns).rows ++
      ((insertionRows rows plan).filter
        (insertOK (createEffect db tn plan.types plan.columns).ncols
          (rows.headD []).length)).map toParams).drop (dbRows db).length := hw
  rw [createEffect_rows, List.drop_left] at hw2
  obtain ⟨r, hrf, rfl⟩ := List.mem_map.mp hw2
  refine ⟨r, List.mem_of_mem_filter hrf, rfl, ?_⟩
  intro j hj hw2
  have hcell : (toParams r).get ⟨j, hw2⟩ =
      (fun v => if v.isEmpty then none else some v) (r.get ⟨j, hj⟩) := by
    simp [toParams, List.get_map]
  by_cases hv : r.get ⟨j, hj⟩ = []
  · rw [hcell, hv]
    simp
  · rw [hcell]
    have hvi : (r.get ⟨j, hj⟩).isEmpty = false := by
      cases hvv : r.get ⟨j, hj⟩ with
      | nil => exact absurd hvv hv
      | cons a l => rfl
    simp [hvi, hv]

/-- Witness for C8 on a two-record file whose data record has an empty
second cell: the stored row holds null there and no stored cell is an empty
string. -/
theorem C8_witness :
    ([[pstr "a", pstr "b"], [pstr "1", []]] : List Row) ≠ [] ∧
    planOf ([[pstr "a", pstr "b"], [pstr "1", []]].take 20) =
      some ⟨true, ["INTEGER", "TEXT"], some [pstr "a", pstr "b"], 2⟩ ∧
    (Plan.types ⟨true, ["INTEGER", "TEXT"], some [pstr "a", pstr "b"], 2⟩ ≠ []) ∧
    loadfile none true "w.csv" (pstr "A") [[pstr "a", pstr "b"], [pstr "1", []]] true =
      LoadOutcome.ok none (some ⟨2, [[some (pstr "1"), none]]⟩) 1 ∧
    (∀ w ∈ (⟨2, [[some (pstr "1"), none]]⟩ : SqlTable).rows.drop
        (dbRows (none : DB)).length,
      ∃ r ∈ insertionRows [[pstr "a", pstr "b"], [pstr "1", []]]
          ⟨true, ["INTEGER", "TEXT"], some [pstr "a", pstr "b"], 2⟩,
        w = toParams r ∧
        (∀ (j : Nat) (hj : j < r.length) (hw : j < w.length),
          (r.get ⟨j, hj⟩ = [] ↔ w.get ⟨j, hw⟩ = none) ∧
          w.get ⟨j, hw⟩ ≠ some [])) :=
  ⟨by decide, by decide, by decide, by decide,
    C8_empty_cell_null none "w.csv" (pstr "A") [[pstr "a", pstr "b"], [pstr "1", []]]
      ⟨true, ["INTEGER", "TEXT"], some [pstr "a", pstr "b"], 2⟩
      ⟨2, [[some (pstr "1"), none]]⟩ 1 (by decide) (by decide) (by decide) (by decide)⟩

/-! ### C10 -/

/-- C10: on a source whose sample is exactly one non-empty record, the empty
without-first type vector differs from the non-empty full vector, so the
record is always declared a header: its cells become the column names, the
schema types are the ones inferred from its own values, and zero data rows
are inserted (the table is created empty, or an existing one kept). -/
theorem C10_single_row_header (r : Row) (db : DB) (ign : Bool) (fn : String)
    (tn : PyStr) (hne : r ≠ []) (hwf : ∀ v ∈ r, blobAccepts v = true) :
    ∃ ts, detect_types [r] = some ts ∧ ts ≠ [] ∧
      planOf [r] = some ⟨true, ts, some r, 2⟩ ∧
      loadfile db ign fn tn [r] true =
        LoadOutcome.ok none (some (createEffect db tn ts (some r))) 0 ∧
      (createEffect db tn ts (some r)).rows = dbRows db := by
  have hdet := detect_types_blob_spec [r] (by
    intro x hx v hv
    rcases List.mem_singleton.mp hx with rfl
    exact hwf v hv)
  have htsne : ((pyZip [r]).map (fun col => specColumnType (scannedOf col))) ≠ [] := by
    cases r with
    | nil => exact absurd rfl hne
    | cons c ctail => simp [pyZip, pyZipAux]
  have hne2 : ([] : List String) ≠
      (pyZip [r]).map (fun col => specColumnType (scannedOf col)) :=
    fun h => htsne h.symm
  have hplan : planOf [r] =
      some ⟨true, (pyZip [r]).map (fun col => specColumnType (scannedOf col)),
        some r, 2⟩ := by
    unfold planOf
    rw [show ([r] : List Row).tail = [] from rfl, hdet,
      show detect_types ([] : List Row) = some [] from rfl]
    simp [hne2]
  refine ⟨_, hdet, htsne, hplan, ?_,
    createEffect_rows db tn ((pyZip [r]).map (fun col => specColumnType (scannedOf col)))
      (some r)⟩
  rw [loadfile_run db ign fn tn [r]
    ⟨true, (pyZip [r]).map (fun col => specColumnType (scannedOf col)), some r, 2⟩
    (by simp) hplan htsne]
  rfl

/-- Witness for C10 on the one-record file Name,Age. -/
theorem C10_witness :
    ([pstr "Name", pstr "Age"] : Row) ≠ [] ∧
    (∀ v ∈ ([pstr "Name", pstr "Age"] : Row), blobAccepts v = true) ∧
    (∃ ts, detect_types [[pstr "Name", pstr "Age"]] = some ts ∧ ts ≠ [] ∧
      planOf [[pstr "Name", pstr "Age"]] =
        some ⟨true, ts, some [pstr "Name", pstr "Age"], 2⟩ ∧
      loadfile none false "one.csv" (pstr "T") [[pstr "Name", pstr "Age"]] true =
        LoadOutcome.ok none
          (some (createEffect none (pstr "T") ts (some [pstr "Name", pstr "Age"]))) 0 ∧
      (createEffect none (pstr "T") ts (some [pstr "Name", pstr "Age"])).rows =
        dbRows (none : DB)) :=
  ⟨by decide, by decide,
    C10_single_row_header [pstr "Name", pstr "Age"] none false "one.csv" (pstr "T")
      (by decide) (by decide)⟩

/-! ### C5 -/

/-- C5: the deduplication of supplied column names is deterministic and
matches the documented example, but the sanitisation does not replace every
maximal run of non-word characters: the flags re.M bitor re.U are passed as
the count argument of re.sub, so only the first forty runs are replaced, and
a name with forty-one runs keeps a non-word character. -/
theorem C5_sanitize_eval :
    buildColumnNames
        [pstr "Red", pstr "Green", pstr "Red", pstr "Blue", pstr "Green", pstr "Green"]
      = [pstr "Red", pstr "Green", pstr "Red_2", pstr "Blue",
         pstr "Green_2", pstr "Green_3"] ∧
    ((buildColumnNames [fortyOneRuns]).headD []).any (fun c => !isWordChar c) = true :=
  ⟨by decide, by decide⟩

/-! ### C6 -/

/-- C6, counterexample: one column with two types is an arity mismatch, yet
create_table emits a one-clause statement instead of failing: the claimed
arity precondition does not exist in the code, the zip silently truncates. -/
theorem C6_counterexample :
    create_table_stmt (pstr "A") ["INTEGER", "TEXT"] (some [pstr "x"]) true =
      Except.ok (pstr "CREATE TABLE IF NOT EXISTS \"A\" (\n  \"x\" INTEGER\n)") := by
  rfl

/-- C6, amended: create_table fails, before any DDL is produced, exactly
when zero types are supplied; no column/type arity check is performed, and
on success it emits one comma-joined clause per zipped (quoted identifier,
literal type keyword) pair, mismatched lengths being truncated by the zip. -/
theorem C6_amended_create_table (tn : PyStr) (types : List String)
    (cols : List PyStr) (b : Bool) :
    ((create_table_stmt tn types (some cols) b = Except.error LoadError.schemaError)
        ↔ types = []) ∧
    (types = [] → ∀ ddl, create_table_stmt tn types (some cols) b ≠ Except.ok ddl) ∧
    (cols ≠ [] → types ≠ [] →
      create_table_stmt tn types (some cols) b =
        Except.ok (pstr "CREATE TABLE " ++ (if b then pstr "IF NOT EXISTS " else []) ++
          quote_identifier tn ++ pstr " (\n  " ++
          joinSep (pstr ",\n  ")
            ((((buildColumnNames cols).map quote_identifier).zip types).map
              (fun p => p.1 ++ 32 :: pstr p.2)) ++ pstr "\n)")) := by
  refine ⟨⟨fun h => ?_, fun h => ?_⟩, fun h ddl hok => ?_, fun hc htp => ?_⟩
  · by_cases he : types.isEmpty
    · simpa using he
    · unfold create_table_stmt at h
      rw [Bool.not_eq_true] at he
      rw [he] at h
      simp at h
  · subst h
    rfl
  · subst h
    simp [create_table_stmt] at hok
  · have hce : cols.isEmpty = false := by
      cases cols with
      | nil => exact absurd rfl hc
      | cons a l => rfl
    have hte : types.isEmpty = false := by
      cases types with
      | nil => exact absurd rfl htp
      | cons a l => rfl
    simp [create_table_stmt, effectiveColumns, hce, hte]

/-- Witness for C6 at a concrete mismatched call: one column, two types,
one emitted clause. -/
theorem C6_witness :
    ([pstr "x"] : List PyStr) ≠ [] ∧
    (["INTEGER", "TEXT"] : List String) ≠ [] ∧
    create_table_stmt (pstr "B") ["INTEGER", "TEXT"] (some [pstr "x"]) true =
      Except.ok (pstr "CREATE TABLE " ++ (if true then pstr "IF NOT EXISTS " else []) ++
        quote_identifier (pstr "B") ++ pstr " (\n  " ++
        joinSep (pstr ",\n  ")
          ((((buildColumnNames [pstr "x"]).map quote_identifier).zip
              ["INTEGER", "TEXT"]).map
            (fun p => p.1 ++ 32 :: pstr p.2)) ++ pstr "\n)") :=
  ⟨by decide, by decide,
    (C6_amended_create_table (pstr "B") ["INTEGER", "TEXT"] [pstr "x"] true).2.2
      (by decide) (by decide)⟩

end Swadr
